import Mathlib

/-
Verification of the kiosk-agent communication core
(`kiosk-os/services/kiosk-agent.py`) against its specification.

Shallow embedding notes.

* Python JSON-ish values are modelled by `PyVal`; a Python `dict` is an
  association list of string keys (the agent only ever indexes with string
  keys).  Python exceptions are modelled by `PyErr`; fallible operations
  return `Except PyErr _`.
* The privileged executor actions (`restart_system`, `update_system`,
  `install_application`, `uninstall_application`, `configure_system`) are
  external collaborators by the spec; they are modelled by a parameter
  `exec : Action -> Option PyErr` recording, for each invocation, whether
  the action raises.  The Lean trace records every invocation in order.
* Network transport, JSON parsing of wire bytes and the host environment
  are modelled as oracle inputs: each heartbeat tick, stream connection
  attempt and inbound stream message is given together with the outcome of
  its transport/parse step.
* Log calls are modelled by `LogEntry` values carrying the static part of
  the source's message; `logger.debug` calls are omitted.  The f-string of
  `process_commands`' error handler re-evaluates `command.get('type')`,
  which can itself raise; the embedding keeps that re-evaluation.
-/

namespace KioskAgent

/-- Python exception classes the agent's code paths can raise. -/
inductive PyErr where
  | attributeError
  | typeError
  | keyError
  | valueError
  | connectionError
  | other (msg : String)
deriving DecidableEq, Repr

/-- JSON-ish Python values as handled by the agent. -/
inductive PyVal where
  | null
  | bool (b : Bool)
  | int (n : Int)
  | str (s : String)
  | list (xs : List PyVal)
  | dict (kvs : List (String × PyVal))
deriving Repr

/-- A log record: level plus the static text of the source's message. -/
inductive LogEntry where
  | info (msg : String)
  | warning (msg : String)
  | error (msg : String)
deriving DecidableEq, Repr

/-- True for `LogEntry.error`. -/
def LogEntry.isError : LogEntry → Bool
  | .error _ => true
  | _ => false

/-- Executor invocations (`restart_system`, `update_system`,
`install_application`, `uninstall_application`, `configure_system`),
each recorded with the payload it was invoked with. -/
inductive Action where
  | restart
  | update (d : PyVal)
  | install_app (d : PyVal)
  | uninstall_app (d : PyVal)
  | configure (d : PyVal)
deriving Repr

/-- The external Command Executor: for each invoked action, `none` means the
action returned, `some e` means it raised `e`. -/
abbrev Exec := Action → Option PyErr

/-- First-match lookup in an association list, as Python dict indexing
(the embedding never builds dicts with duplicate keys). -/
def lookupStr : List (String × PyVal) → String → Option PyVal
  | [], _ => Option.none
  | (k, v) :: rest, key => if k == key then some v else lookupStr rest key

/-- Key-membership test on an association list. -/
def hasKeyStr : List (String × PyVal) → String → Bool
  | [], _ => false
  | (k, _) :: rest, key => (k == key) || hasKeyStr rest key

/-- Python dict assignment `d[k] = v`: replace the binding if the key is
present, else append it. -/
def dictInsert : List (String × PyVal) → String × PyVal → List (String × PyVal)
  | [], kv => [kv]
  | (k, v) :: rest, kv =>
      if k == kv.1 then (k, kv.2) :: rest else (k, v) :: dictInsert rest kv

/-- Substring test on character lists (Python `needle in haystack` for str). -/
def listContainsSub (ns : List Char) : List Char → Bool
  | [] => ns.isEmpty
  | h :: t => List.isPrefixOf ns (h :: t) || listContainsSub ns t

/-- Python `v.get(k, dflt)`: only mappings have `.get`; any other receiver
raises `AttributeError`. -/
def pyGet : PyVal → String → PyVal → Except PyErr PyVal
  | .dict kvs, k, dflt => .ok ((lookupStr kvs k).getD dflt)
  | _, _, _ => .error .attributeError

/-- Python `v[k]` with a string key: mapping lookup (`KeyError` when absent);
a string key into a list or string raises `TypeError`, as does any
non-subscriptable value. -/
def pySubscript : PyVal → String → Except PyErr PyVal
  | .dict kvs, k =>
      match lookupStr kvs k with
      | some v => .ok v
      | Option.none => .error .keyError
  | _, _ => .error .typeError

/-- Python equality of a value against a string literal: only an equal
string compares equal. -/
def pyEqStr : PyVal → String → Bool
  | .str s, t => s == t
  | _, _ => false

/-- Python `k in v`: dict keys, list membership, substring for strings;
`TypeError` otherwise. -/
def pyContains (v : PyVal) (k : String) : Except PyErr Bool :=
  match v with
  | .dict kvs => .ok (hasKeyStr kvs k)
  | .list xs => .ok (xs.any (fun x => pyEqStr x k))
  | .str s => .ok (listContainsSub k.data s.data)
  | _ => .error .typeError

/-- Python `for x in v`: elements of a list, the characters of a string,
the keys of a dict; `TypeError` for non-iterables. -/
def pyIter : PyVal → Except PyErr (List PyVal)
  | .list xs => .ok xs
  | .str s => .ok (s.data.map (fun c => .str (String.mk [c])))
  | .dict kvs => .ok (kvs.map (fun kv => .str kv.1))
  | _ => .error .typeError

/-- True exactly for mapping values. -/
def PyVal.isDict : PyVal → Bool
  | .dict _ => true
  | _ => false

/-- Result of handling one command in `process_commands`' loop body:
executor invocations, log records, and the exception escaping the
iteration, if any. -/
structure StepRes where
  actions : List Action
  logs : List LogEntry
  escaped : Option PyErr
deriving Repr

/-- The `try`-block of `process_commands`' loop body (lines 329-344):
read `command.get('type')`, log, route on the type string; recognized kinds
invoke the executor with `command.get('data', \x7b\x7d)`; unknown kinds log a
warning.  `escaped` is the exception the block raises, if any. -/
def dispatchBody (exec : Exec) (command : PyVal) : StepRes :=
  match pyGet command "type" .null with
  | .error e => ⟨[], [], some e⟩
  | .ok t =>
    let l0 := LogEntry.info "Processing command"
    if pyEqStr t "restart" then
      ⟨[.restart], [l0], exec .restart⟩
    else if pyEqStr t "update" then
      match pyGet command "data" (.dict []) with
      | .error e => ⟨[], [l0], some e⟩
      | .ok d => ⟨[.update d], [l0], exec (.update d)⟩
    else if pyEqStr t "install_app" then
      match pyGet command "data" (.dict []) with
      | .error e => ⟨[], [l0], some e⟩
      | .ok d => ⟨[.install_app d], [l0], exec (.install_app d)⟩
    else if pyEqStr t "uninstall_app" then
      match pyGet command "data" (.dict []) with
      | .error e => ⟨[], [l0], some e⟩
      | .ok d => ⟨[.uninstall_app d], [l0], exec (.uninstall_app d)⟩
    else if pyEqStr t "configure" then
      match pyGet command "data" (.dict []) with
      | .error e => ⟨[], [l0], some e⟩
      | .ok d => ⟨[.configure d], [l0], exec (.configure d)⟩
    else
      ⟨[], [l0, .warning "Unknown command type"], Option.none⟩

/-- One iteration of `process_commands`' loop: the `try`-block wrapped by
`except Exception` (lines 346-347).  The handler's f-string re-evaluates
`command.get('type')`; if that second `.get` itself raises, the new
exception escapes the handler (and hence the loop). -/
def dispatchOne (exec : Exec) (command : PyVal) : StepRes :=
  let r := dispatchBody exec command
  match r.escaped with
  | some _ =>
    match pyGet command "type" .null with
    | .error e2 => ⟨r.actions, r.logs, some e2⟩
    | .ok _ => ⟨r.actions, r.logs ++ [.error "Failed to process command"], Option.none⟩
  | Option.none => r

/-- Result of `process_commands`: executor invocations in order, logs,
the envelopes handed to the per-command dispatch, and the exception
escaping `process_commands`, if any. -/
structure DispatchRes where
  actions : List Action
  logs : List LogEntry
  handed : List PyVal
  escaped : Option PyErr
deriving Repr

/-- The `for` loop of `process_commands` over an already-iterated list of
envelopes: each element is handed to `dispatchOne`; an exception escaping
an iteration aborts the loop and escapes `process_commands`. -/
def processCommandsList (exec : Exec) : List PyVal → DispatchRes
  | [] => ⟨[], [], [], Option.none⟩
  | c :: rest =>
    let r := dispatchOne exec c
    match r.escaped with
    | some e => ⟨r.actions, r.logs, [c], some e⟩
    | Option.none =>
      let s := processCommandsList exec rest
      ⟨r.actions ++ s.actions, r.logs ++ s.logs, c :: s.handed, s.escaped⟩

/-- `process_commands(commands)` (lines 326-347): iterate the `commands`
value (raising `TypeError` out of the function for non-iterables) and
dispatch each element. -/
def process_commands (exec : Exec) (commands : PyVal) : DispatchRes :=
  match pyIter commands with
  | .error e => ⟨[], [], [], some e⟩
  | .ok xs => processCommandsList exec xs

/-- The command kinds recognized by `process_commands`' routing chain. -/
def recognizedKind (t : PyVal) : Bool :=
  pyEqStr t "restart" || pyEqStr t "update" || pyEqStr t "install_app" ||
    pyEqStr t "uninstall_app" || pyEqStr t "configure"

/-- An executor on which no action ever raises. -/
def execNever : Exec := fun _ => Option.none

/-- Result of one heartbeat tick: envelopes handed to dispatch, executor
invocations, and log records. -/
structure HBRes where
  handed : List PyVal
  actions : List Action
  logs : List LogEntry
deriving Repr

/-- The inner `try` of `send_heartbeat`'s 200-branch (lines 313-318):
parse the response body, test `'commands' in response_data`, and hand
`response_data['commands']` to `process_commands`; any exception raised in
this block — parse failure, a non-container body, or an exception escaping
`process_commands` — is caught here and logged, keeping the executor
invocations that happened before the raise.  `body` is the outcome of
`response.json()`. -/
def processResponse (exec : Exec) (body : Except PyErr PyVal) : HBRes :=
  match body with
  | .error _ => ⟨[], [], [.error "Failed to process server response"]⟩
  | .ok d =>
    match pyContains d "commands" with
    | .error _ => ⟨[], [], [.error "Failed to process server response"]⟩
    | .ok false => ⟨[], [], []⟩
    | .ok true =>
      match pySubscript d "commands" with
      | .error _ => ⟨[], [], [.error "Failed to process server response"]⟩
      | .ok v =>
        let r := process_commands exec v
        match r.escaped with
        | some _ => ⟨r.handed, r.actions, r.logs ++ [.error "Failed to process server response"]⟩
        | Option.none => ⟨r.handed, r.actions, r.logs⟩

/-- Oracle input for one heartbeat tick: either the POST (or the config
reads / telemetry collection before it) raised, or a response arrived with
the given HTTP status and body-parse outcome. -/
inductive TickInput where
  | fail (e : PyErr)
  | response (status : Nat) (body : Except PyErr PyVal)

/-- The `try`-block of `send_heartbeat` (lines 290-321): on a transport
failure the exception propagates to the handler; on a response, the
200-branch runs the inner response processing and any other status logs an
error. -/
def heartbeatBody (exec : Exec) : TickInput → Except PyErr HBRes
  | .fail e => .error e
  | .response status body =>
    .ok (if status = 200 then processResponse exec body
         else ⟨[], [], [.error "Heartbeat failed"]⟩)

/-- `send_heartbeat` (lines 285-324): the `try`-block wrapped by the
catch-all `except Exception` at line 323, which logs and returns.  The
second component is the exception `send_heartbeat` raises to its caller,
kept to mirror the call sites. -/
def send_heartbeat (exec : Exec) (i : TickInput) : HBRes × Option PyErr :=
  match heartbeatBody exec i with
  | .ok r => (r, Option.none)
  | .error _ => (⟨[], [], [.error "Failed to send heartbeat"]⟩, Option.none)

/-- Events of the heartbeat loop: a tick and an inter-tick sleep of the
given number of seconds. -/
inductive HBEvent where
  | tick (r : HBRes)
  | sleep (seconds : Nat)
deriving Repr

/-- `heartbeat_loop` (lines 452-462) over a finite schedule of tick
inputs (one per iteration with `running` still true): the loop body awaits
`send_heartbeat` then sleeps `interval`; its `except Exception` branch —
reachable only if `send_heartbeat` raised — logs and also sleeps
`interval`. -/
def heartbeat_loop (exec : Exec) (interval : Nat) : List TickInput → List HBEvent
  | [] => []
  | i :: rest =>
    match send_heartbeat exec i with
    | (r, some _) => .tick r :: .sleep interval :: heartbeat_loop exec interval rest
    | (r, Option.none) => .tick r :: .sleep interval :: heartbeat_loop exec interval rest

/-- A heartbeat tick that failed: transport error, non-200 status, or a
body that did not parse as JSON. -/
def tickFailed : TickInput → Bool
  | .fail _ => true
  | .response status body =>
    status != 200 || (match body with | .error _ => true | .ok _ => false)

/-- Result of stream-message handling / one stream connection: messages
sent by the agent on the connection, executor invocations, envelopes handed
to dispatch, and log records. -/
structure StreamRes where
  sent : List PyVal
  actions : List Action
  handed : List PyVal
  logs : List LogEntry
deriving Repr

/-- The `pong` reply value `js_type_pong` sent in answer to a ping. -/
def pongVal : PyVal := .dict [("type", .str "pong")]

/-- `handle_websocket_message` (lines 410-420): read `data.get('type')`;
`command` wraps `data.get('data', \x7b\x7d)` in a one-element list for
`process_commands`; `ping` sends one pong on the connection; any other
type logs a warning.  The second component is the exception the function
raises to its caller, if any. -/
def handle_websocket_message (exec : Exec) (data : PyVal) : StreamRes × Option PyErr :=
  match pyGet data "type" .null with
  | .error e => (⟨[], [], [], []⟩, some e)
  | .ok t =>
    if pyEqStr t "command" then
      match pyGet data "data" (.dict []) with
      | .error e => (⟨[], [], [], []⟩, some e)
      | .ok d =>
        let r := process_commands exec (.list [d])
        (⟨[], r.actions, r.handed, r.logs⟩, r.escaped)
    else if pyEqStr t "ping" then
      (⟨[pongVal], [], [], []⟩, Option.none)
    else
      (⟨[], [], [], [.warning "Unknown WebSocket message type"]⟩, Option.none)

/-- One iteration of `connect_websocket`'s receive loop (lines 400-405):
parse the raw message as JSON and handle it, with a per-message
`except Exception` that logs and continues.  The oracle input is the
outcome of `json.loads` on the raw message. -/
def receiveOne (exec : Exec) (m : Except PyErr PyVal) : StreamRes :=
  match m with
  | .error _ => ⟨[], [], [], [.error "Failed to process WebSocket message"]⟩
  | .ok data =>
    match handle_websocket_message exec data with
    | (r, some _) => ⟨r.sent, r.actions, r.handed, r.logs ++ [.error "Failed to process WebSocket message"]⟩
    | (r, Option.none) => r

/-- The receive loop over all messages delivered on one connection. -/
def receiveAll (exec : Exec) : List (Except PyErr PyVal) → StreamRes
  | [] => ⟨[], [], [], []⟩
  | m :: rest =>
    let r := receiveOne exec m
    let s := receiveAll exec rest
    ⟨r.sent ++ s.sent, r.actions ++ s.actions, r.handed ++ s.handed, r.logs ++ s.logs⟩

/-- Oracle input for one pass of `connect_websocket`: either the connection
attempt itself raised, or a session was established that delivered the
given messages and then ended — cleanly (`Option.none`) or by a read error
raised out of the receive loop (`some e`). -/
inductive ConnectAttempt where
  | connectFail (e : PyErr)
  | session (msgs : List (Except PyErr PyVal)) (endErr : Option PyErr)

/-- The `try`-block of `connect_websocket` (lines 384-406): connect, log,
run the receive loop.  The second component is the exception raised out of
the block, with the effects that happened before the raise kept. -/
def connectBody (exec : Exec) : ConnectAttempt → StreamRes × Option PyErr
  | .connectFail e => (⟨[], [], [], []⟩, some e)
  | .session msgs endErr =>
    let r := receiveAll exec msgs
    (⟨r.sent, r.actions, r.handed, .info "WebSocket connected" :: r.logs⟩, endErr)

/-- `connect_websocket` (lines 382-408): the `try`-block wrapped by the
catch-all `except Exception` at line 407, which logs the failure and
returns.  The second component is the exception `connect_websocket` raises
to its caller, kept to mirror the call site in `websocket_loop`. -/
def connect_websocket (exec : Exec) (a : ConnectAttempt) : StreamRes × Option PyErr :=
  match connectBody exec a with
  | (r, some _) =>
    (⟨r.sent, r.actions, r.handed, r.logs ++ [.error "WebSocket connection failed"]⟩, Option.none)
  | (r, Option.none) => (r, Option.none)

/-- Events of the stream loop: one full pass of `connect_websocket` and a
reconnect sleep of the given number of seconds. -/
inductive WSEvent where
  | attempt (r : StreamRes)
  | sleep (seconds : Nat)
deriving Repr

/-- `websocket_loop` (lines 464-473) over a finite schedule of connection
attempts (one per iteration with `running` still true): the loop body
awaits `connect_websocket`; its `except Exception` branch — reachable only
if `connect_websocket` raised to the loop — logs and sleeps 30 seconds
before the next attempt. -/
def websocket_loop (exec : Exec) : List ConnectAttempt → List WSEvent
  | [] => []
  | a :: rest =>
    match connect_websocket exec a with
    | (r, some _) => .attempt r :: .sleep 30 :: websocket_loop exec rest
    | (r, Option.none) => .attempt r :: websocket_loop exec rest

/-- Total executor running time of a list of invocations, under a duration
assignment for the external executor. -/
def actionsTime (dur : Action → Nat) (as : List Action) : Nat :=
  (as.map dur).sum

/-- Timing of the receive loop's outbound sends, from start time `t`:
messages are handled strictly one after another (`await` in the `async
for` body), every parse/log step is free, and each executor invocation
runs for its `dur`; each message sent by the agent is stamped with the
time it goes out. -/
def sendTimesFrom (exec : Exec) (dur : Action → Nat) (t : Nat) :
    List (Except PyErr PyVal) → List Nat
  | [] => []
  | m :: rest =>
    let r := receiveOne exec m
    r.sent.map (fun _ => t) ++ sendTimesFrom exec dur (t + actionsTime dur r.actions) rest

/-- Send times of a whole session, starting at time 0. -/
def sendTimes (exec : Exec) (dur : Action → Nat) (msgs : List (Except PyErr PyVal)) : List Nat :=
  sendTimesFrom exec dur 0 msgs

/-- Total executor time spent dispatching a list of inbound messages. -/
def totalDispatchTime (exec : Exec) (dur : Action → Nat) :
    List (Except PyErr PyVal) → Nat
  | [] => 0
  | m :: rest => actionsTime dur (receiveOne exec m).actions + totalDispatchTime exec dur rest

/-- One step of `get_system_info`'s extended-collection `try`-block
(lines 180-231), as an oracle over the host environment: a step either
adds key/value pairs to the info dict or raises. -/
inductive ExtStep where
  | add (kvs : List (String × PyVal))
  | raiseE (e : PyErr)

/-- Run the extended-collection block: steps update the info dict in
order; the first raising step aborts the remaining steps and is caught by
the `except Exception` at line 233, which logs. -/
def runExt : List (String × PyVal) → List ExtStep → List (String × PyVal) × List LogEntry
  | acc, [] => (acc, [])
  | acc, .add kvs :: rest => runExt (kvs.foldl dictInsert acc) rest
  | acc, .raiseE _ :: _ => (acc, [.error "Failed to collect system info"])

/-- Oracle inputs of `get_system_info`: the device id, the `os.uname()`
fields, the formatted timestamp, and the extended-collection steps. -/
structure SysEnv where
  device_id : String
  nodename : String
  release : String
  machine : String
  timestamp : String
  extSteps : List ExtStep

/-- `get_system_info` (lines 170-236): build the base info dict of five
fields, run the extended collection under its catch-all, and return the
dict (the function itself returns normally on every input). -/
def get_system_info (env : SysEnv) : List (String × PyVal) × List LogEntry :=
  runExt
    [("device_id", .str env.device_id),
     ("hostname", .str env.nodename),
     ("kernel", .str env.release),
     ("architecture", .str env.machine),
     ("timestamp", .str env.timestamp)]
    env.extSteps

/-- A mapping envelope never lets an exception escape its loop iteration:
the handler's `command.get('type')` succeeds on a mapping. -/
theorem dispatchOne_dict_no_escape (exec : Exec) (kvs : List (String × PyVal)) :
    (dispatchOne exec (.dict kvs)).escaped = Option.none := by
  cases h : (dispatchBody exec (.dict kvs)).escaped with
  | some e => simp [dispatchOne, h, pyGet]
  | none => simp [dispatchOne, h]

/-- Unfolding of the dispatch loop on an iteration that does not escape. -/
theorem processCommandsList_cons_no_escape (exec : Exec) (c : PyVal) (rest : List PyVal)
    (h : (dispatchOne exec c).escaped = Option.none) :
    processCommandsList exec (c :: rest) =
      ⟨(dispatchOne exec c).actions ++ (processCommandsList exec rest).actions,
       (dispatchOne exec c).logs ++ (processCommandsList exec rest).logs,
       c :: (processCommandsList exec rest).handed,
       (processCommandsList exec rest).escaped⟩ := by
  cases hd : dispatchOne exec c with
  | mk as ls esc =>
    rw [hd] at h
    simp only at h
    subst h
    simp [processCommandsList, hd]

/-- The receive loop's accumulated effects are the per-message effects in
message order. -/
theorem receiveAll_eq (exec : Exec) (msgs : List (Except PyErr PyVal)) :
    receiveAll exec msgs =
      ⟨msgs.flatMap (fun m => (receiveOne exec m).sent),
       msgs.flatMap (fun m => (receiveOne exec m).actions),
       msgs.flatMap (fun m => (receiveOne exec m).handed),
       msgs.flatMap (fun m => (receiveOne exec m).logs)⟩ := by
  induction msgs with
  | nil => rfl
  | cons m rest ih => simp [receiveAll, ih]

/-- `send_heartbeat` never raises to its caller: its catch-all handler
returns after logging. -/
theorem send_heartbeat_total (exec : Exec) (i : TickInput) :
    (send_heartbeat exec i).2 = Option.none := by
  unfold send_heartbeat
  cases heartbeatBody exec i <;> rfl

/-- The heartbeat loop runs one tick and one fixed-interval sleep per
scheduled iteration. -/
theorem heartbeat_loop_eq (exec : Exec) (interval : Nat) (inputs : List TickInput) :
    heartbeat_loop exec interval inputs =
      inputs.flatMap
        (fun i => [HBEvent.tick (send_heartbeat exec i).1, HBEvent.sleep interval]) := by
  induction inputs with
  | nil => rfl
  | cons i rest ih =>
    simp only [heartbeat_loop]
    split
    · next r e heq => simp [heq, ih]
    · next r heq => simp [heq, ih]

/-- The inbound ping envelope used in the stream-timing statements. -/
def pingEnvelope : PyVal := .dict [("type", .str "ping")]

/-- The inbound command envelope (carrying a restart) used in the
stream-timing statements. -/
def restartStreamEnvelope : PyVal :=
  .dict [("type", .str "command"), ("data", .dict [("type", .str "restart")])]

/-- A ping appended to a session is answered only once every earlier
message has been fully handled, dispatch included: its pong goes out at
the start time plus the total executor time of the messages before it. -/
theorem sendTimesFrom_append_ping (exec : Exec) (dur : Action → Nat) (t : Nat)
    (msgs : List (Except PyErr PyVal)) :
    sendTimesFrom exec dur t (msgs ++ [Except.ok pingEnvelope]) =
      sendTimesFrom exec dur t msgs ++ [t + totalDispatchTime exec dur msgs] := by
  induction msgs generalizing t with
  | nil =>
    simp [sendTimesFrom, totalDispatchTime, receiveOne, handle_websocket_message,
      pingEnvelope, pyGet, pyEqStr, lookupStr, actionsTime]
  | cons m rest ih =>
    simp [sendTimesFrom, totalDispatchTime, ih, Nat.add_assoc]

/-- A key with no binding in a dict fails the membership test. -/
theorem hasKeyStr_eq_false_of_lookup_none (kvs : List (String × PyVal)) (k : String)
    (h : lookupStr kvs k = Option.none) : hasKeyStr kvs k = false := by
  induction kvs with
  | nil => rfl
  | cons p rest ih =>
    obtain ⟨pk, pv⟩ := p
    simp only [lookupStr] at h
    cases hb : (pk == k) with
    | true => simp [hb] at h
    | false =>
      simp only [hb, Bool.false_eq_true, if_false] at h
      simp [hasKeyStr, hb, ih h]

/-- A key with a binding in a dict passes the membership test. -/
theorem hasKeyStr_eq_true_of_lookup_some (kvs : List (String × PyVal)) (k : String)
    (v : PyVal) (h : lookupStr kvs k = some v) : hasKeyStr kvs k = true := by
  induction kvs with
  | nil => cases h
  | cons p rest ih =>
    obtain ⟨pk, pv⟩ := p
    simp only [lookupStr] at h
    cases hb : (pk == k) with
    | true => simp [hasKeyStr, hb]
    | false =>
      simp only [hb, Bool.false_eq_true, if_false] at h
      simp [hasKeyStr, hb, ih h]

/-- Python dict assignment keeps every key that was already present. -/
theorem hasKeyStr_dictInsert (kvs : List (String × PyVal)) (kv : String × PyVal) (k : String)
    (h : hasKeyStr kvs k = true) : hasKeyStr (dictInsert kvs kv) k = true := by
  induction kvs with
  | nil => cases h
  | cons p rest ih =>
    obtain ⟨pk, pv⟩ := p
    simp only [hasKeyStr, Bool.or_eq_true] at h
    cases hpk : (pk == kv.1) with
    | true =>
      simp only [dictInsert, hpk, if_true, hasKeyStr, Bool.or_eq_true]
      exact h
    | false =>
      simp only [dictInsert, hpk, Bool.false_eq_true, if_false, hasKeyStr, Bool.or_eq_true]
      rcases h with h | h
      · exact Or.inl h
      · exact Or.inr (ih h)

/-- Folding dict assignments keeps every key that was already present. -/
theorem hasKeyStr_foldl_dictInsert (kvs : List (String × PyVal))
    (acc : List (String × PyVal)) (k : String)
    (h : hasKeyStr acc k = true) : hasKeyStr (kvs.foldl dictInsert acc) k = true := by
  induction kvs generalizing acc with
  | nil => exact h
  | cons kv rest ih => exact ih _ (hasKeyStr_dictInsert _ _ _ h)

/-- The extended-collection block keeps every key of the dict it starts
from, whether it completes or a step raises. -/
theorem hasKeyStr_runExt (steps : List ExtStep) (acc : List (String × PyVal)) (k : String)
    (h : hasKeyStr acc k = true) : hasKeyStr (runExt acc steps).1 k = true := by
  induction steps generalizing acc with
  | nil => exact h
  | cons s rest ih =>
    cases s with
    | add kvs => exact ih _ (hasKeyStr_foldl_dictInsert kvs acc k h)
    | raiseE e => simpa [runExt] using h

/-- Claim C1 (refuted; code bug).  The claim says every error raised while
handling a batch element — including elements that are not mappings — is
caught at the dispatch boundary and processing continues with the
remaining elements.  On the batch `[0, dict type restart]` the non-mapping
element `0` makes `command.get` raise; the handler's log f-string
re-evaluates `command.get('type')`, which raises again, and that second
`AttributeError` escapes `process_commands`: the batch is aborted and the
restart command is never dispatched. -/
theorem process_commands_nonmapping_aborts_batch :
    (processCommandsList execNever
        [PyVal.int 0, PyVal.dict [("type", PyVal.str "restart")]]).escaped
        = some PyErr.attributeError
      ∧ (processCommandsList execNever
          [PyVal.int 0, PyVal.dict [("type", PyVal.str "restart")]]).actions = [] :=
  ⟨rfl, rfl⟩

/-- Claim C2 (refuted; code bug).  The claim says each failed connection
attempt is followed by a 30-second cool-down before the next attempt.
`connect_websocket` catches its own connection failure and returns
normally, so `websocket_loop`'s `except` branch — the only place that
sleeps — is never reached: two consecutive failed attempts produce two
back-to-back attempt events with no sleep event between them. -/
theorem websocket_loop_retries_without_cooldown :
    websocket_loop execNever
        [.connectFail .connectionError, .connectFail .connectionError]
      = [WSEvent.attempt ⟨[], [], [], [.error "WebSocket connection failed"]⟩,
         WSEvent.attempt ⟨[], [], [], [.error "WebSocket connection failed"]⟩] :=
  rfl

/-- Claim C3 (confirmed).  A mapping envelope whose type string is not one
of restart, update, install_app, uninstall_app, configure — including a
missing type field, read as None — makes dispatch log a warning and return
normally, with no executor action invoked and no exception to the
caller. -/
theorem dispatch_unknown_kind_warns_and_returns (exec : Exec)
    (kvs : List (String × PyVal))
    (h : recognizedKind ((lookupStr kvs "type").getD .null) = false) :
    dispatchOne exec (.dict kvs)
      = ⟨[], [.info "Processing command", .warning "Unknown command type"], Option.none⟩ := by
  simp only [recognizedKind, Bool.or_eq_false_iff] at h
  obtain ⟨⟨⟨⟨h1, h2⟩, h3⟩, h4⟩, h5⟩ := h
  simp [dispatchOne, dispatchBody, pyGet, h1, h2, h3, h4, h5]

/-- Witness for claim C3 at a concrete unrecognized envelope. -/
theorem dispatch_unknown_kind_warns_and_returns_witness :
    dispatchOne execNever (.dict [("type", PyVal.str "frobnicate")])
      = ⟨[], [.info "Processing command", .warning "Unknown command type"], Option.none⟩ :=
  dispatch_unknown_kind_warns_and_returns execNever
    [("type", PyVal.str "frobnicate")] (by decide)

/-- Claim C4 (confirmed).  A heartbeat response whose JSON body lacks a
commands field, or whose commands field is the empty array, hands no
envelope to the dispatcher and runs no executor action. -/
theorem heartbeat_no_commands_no_dispatch (exec : Exec) (status : Nat)
    (kvs : List (String × PyVal))
    (h : lookupStr kvs "commands" = Option.none
        ∨ lookupStr kvs "commands" = some (PyVal.list [])) :
    (send_heartbeat exec (.response status (.ok (.dict kvs)))).1.handed = []
      ∧ (send_heartbeat exec (.response status (.ok (.dict kvs)))).1.actions = [] := by
  by_cases hst : status = 200
  · subst hst
    rcases h with h | h
    · have hk : hasKeyStr kvs "commands" = false :=
        hasKeyStr_eq_false_of_lookup_none kvs "commands" h
      simp [send_heartbeat, heartbeatBody, processResponse, pyContains, hk]
    · have hk : hasKeyStr kvs "commands" = true :=
        hasKeyStr_eq_true_of_lookup_some kvs "commands" _ h
      simp [send_heartbeat, heartbeatBody, processResponse, pyContains, hk, pySubscript,
        h, process_commands, pyIter, processCommandsList]
  · simp [send_heartbeat, heartbeatBody, hst]

/-- Witness for claim C4: a body without a commands field and a body with
an empty commands array, both at status 200. -/
theorem heartbeat_no_commands_no_dispatch_witness :
    ((send_heartbeat execNever
        (.response 200 (.ok (.dict [("status", PyVal.str "ok")])))).1.handed = []
      ∧ (send_heartbeat execNever
          (.response 200 (.ok (.dict [("status", PyVal.str "ok")])))).1.actions = [])
      ∧ ((send_heartbeat execNever
          (.response 200 (.ok (.dict [("commands", PyVal.list [])])))).1.handed = []
        ∧ (send_heartbeat execNever
            (.response 200 (.ok (.dict [("commands", PyVal.list [])])))).1.actions = []) :=
  ⟨heartbeat_no_commands_no_dispatch execNever 200 [("status", PyVal.str "ok")]
      (Or.inl rfl),
   heartbeat_no_commands_no_dispatch execNever 200 [("commands", PyVal.list [])]
      (Or.inr rfl)⟩

/-- Claim C5 (confirmed).  A batch of mapping envelopes is dispatched
strictly in array order: the executor-invocation trace is the
concatenation of the per-envelope traces in the order of the array, and
nothing escapes the loop (even when executor actions raise). -/
theorem process_commands_in_order (exec : Exec) (cmds : List PyVal)
    (h : cmds.all PyVal.isDict = true) :
    (processCommandsList exec cmds).actions
        = cmds.flatMap (fun c => (dispatchOne exec c).actions)
      ∧ (processCommandsList exec cmds).escaped = Option.none := by
  induction cmds with
  | nil => exact ⟨rfl, rfl⟩
  | cons c rest ih =>
    simp only [List.all_cons, Bool.and_eq_true] at h
    obtain ⟨hc, hrest⟩ := h
    obtain ⟨ih1, ih2⟩ := ih hrest
    cases c with
    | dict kvs =>
      rw [processCommandsList_cons_no_escape exec _ rest
        (dispatchOne_dict_no_escape exec kvs)]
      exact ⟨by simp [List.flatMap_cons, ih1], ih2⟩
    | null => simp [PyVal.isDict] at hc
    | bool b => simp [PyVal.isDict] at hc
    | int n => simp [PyVal.isDict] at hc
    | str s => simp [PyVal.isDict] at hc
    | list xs => simp [PyVal.isDict] at hc

/-- Witness for claim C5: the two-configure batch a:1 then a:2 is
dispatched with a:1 strictly before a:2. -/
theorem process_commands_in_order_witness :
    (processCommandsList execNever
        [PyVal.dict [("type", PyVal.str "configure"), ("data", PyVal.dict [("a", PyVal.int 1)])],
         PyVal.dict [("type", PyVal.str "configure"), ("data", PyVal.dict [("a", PyVal.int 2)])]]).actions
      = [Action.configure (PyVal.dict [("a", PyVal.int 1)]),
         Action.configure (PyVal.dict [("a", PyVal.int 2)])] :=
  ((process_commands_in_order execNever
      [PyVal.dict [("type", PyVal.str "configure"), ("data", PyVal.dict [("a", PyVal.int 1)])],
       PyVal.dict [("type", PyVal.str "configure"), ("data", PyVal.dict [("a", PyVal.int 2)])]]
      (by decide)).1).trans rfl

/-- Claim C6 (confirmed).  Every heartbeat iteration is one tick followed
by one fixed-interval sleep, so the loop survives every failed tick with
no extra backoff; `send_heartbeat` never raises to the loop, and every
failed tick — transport error, non-200 status, or unparseable body — logs
an error inside the tick. -/
theorem heartbeat_loop_resilient (exec : Exec) (interval : Nat)
    (inputs : List TickInput) :
    heartbeat_loop exec interval inputs
        = inputs.flatMap
            (fun i => [HBEvent.tick (send_heartbeat exec i).1, HBEvent.sleep interval])
      ∧ (∀ i : TickInput, (send_heartbeat exec i).2 = Option.none)
      ∧ (∀ i : TickInput, tickFailed i = true →
          (send_heartbeat exec i).1.logs.any LogEntry.isError = true) := by
  refine ⟨heartbeat_loop_eq exec interval inputs, fun i => send_heartbeat_total exec i, ?_⟩
  intro i hi
  cases i with
  | fail e => simp [send_heartbeat, heartbeatBody, LogEntry.isError]
  | response st body =>
    by_cases hst : st = 200
    · subst hst
      cases body with
      | error e =>
        simp [send_heartbeat, heartbeatBody, processResponse, LogEntry.isError]
      | ok d => simp [tickFailed] at hi
    · simp [send_heartbeat, heartbeatBody, hst, LogEntry.isError]

/-- Witness for claim C6 at a concrete transport failure. -/
theorem heartbeat_loop_resilient_witness :
    (send_heartbeat execNever (TickInput.fail PyErr.connectionError)).1.logs.any
        LogEntry.isError = true :=
  (heartbeat_loop_resilient execNever 60 []).2.2
    (TickInput.fail PyErr.connectionError) rfl

/-- Claim C7 (confirmed).  On one connection, the receive loop's effects
are exactly the per-message effects of every delivered message in order —
a malformed message only adds an error log — and `connect_websocket` ends
the session without raising: a malformed message neither closes the
connection from the agent's side nor stops the processing of later
messages. -/
theorem stream_malformed_message_isolated (exec : Exec)
    (msgs : List (Except PyErr PyVal)) :
    (connect_websocket exec (.session msgs Option.none)).2 = Option.none
      ∧ (connect_websocket exec (.session msgs Option.none)).1.sent
          = msgs.flatMap (fun m => (receiveOne exec m).sent)
      ∧ (connect_websocket exec (.session msgs Option.none)).1.actions
          = msgs.flatMap (fun m => (receiveOne exec m).actions)
      ∧ (connect_websocket exec (.session msgs Option.none)).1.logs
          = .info "WebSocket connected"
              :: msgs.flatMap (fun m => (receiveOne exec m).logs)
      ∧ (∀ e : PyErr, receiveOne exec (.error e)
          = ⟨[], [], [], [.error "Failed to process WebSocket message"]⟩) := by
  refine ⟨?_, ?_, ?_, ?_, fun e => rfl⟩ <;>
    simp [connect_websocket, connectBody, receiveAll_eq]

/-- Claim C8 (confirmed).  A stream message whose type is ping gets
exactly one pong reply on the same connection, with no envelope handed to
dispatch and no executor action invoked. -/
theorem ping_pong_no_dispatch (exec : Exec) (kvs : List (String × PyVal))
    (h : lookupStr kvs "type" = some (PyVal.str "ping")) :
    handle_websocket_message exec (.dict kvs)
      = (⟨[pongVal], [], [], []⟩, Option.none) := by
  simp [handle_websocket_message, pyGet, h, pyEqStr]

/-- Witness for claim C8 at the concrete ping envelope. -/
theorem ping_pong_no_dispatch_witness :
    handle_websocket_message execNever (.dict [("type", PyVal.str "ping")])
      = (⟨[pongVal], [], [], []⟩, Option.none) :=
  ping_pong_no_dispatch execNever [("type", PyVal.str "ping")] rfl

/-- Claim C9, counterexample.  The claim says a pong reply is never
delayed by an in-flight command dispatch.  The receive loop awaits
dispatch inline, so the pong for a ping queued behind a command message
goes out later when the command's executor action runs longer: with the
same two-message session, the pong send time differs between an executor
that takes 5 time units and one that takes 0. -/
theorem ping_reply_delayed_by_dispatch :
    sendTimes execNever (fun _ => 5)
        [Except.ok restartStreamEnvelope, Except.ok pingEnvelope]
      ≠ sendTimes execNever (fun _ => 0)
          [Except.ok restartStreamEnvelope, Except.ok pingEnvelope] := by
  decide

/-- Claim C9, amended (proved).  Stream messages are handled strictly
sequentially: a ping delivered after other messages is answered exactly
when all of their handling — executor dispatch included — has finished, so
the pong is delayed by the full in-flight dispatch time rather than being
independent of it. -/
theorem ping_reply_sequential_after_prior_dispatch (exec : Exec)
    (dur : Action → Nat) (msgs : List (Except PyErr PyVal)) :
    sendTimes exec dur (msgs ++ [Except.ok pingEnvelope])
      = sendTimes exec dur msgs ++ [totalDispatchTime exec dur msgs] := by
  simpa [sendTimes] using sendTimesFrom_append_ping exec dur 0 msgs

/-- Claim C10 (confirmed).  Whatever the host environment does — including
any extended-collection step raising — the telemetry snapshot returned by
`get_system_info` contains the five base fields device_id, hostname,
kernel, architecture and timestamp, and the function returns normally. -/
theorem get_system_info_base_fields (env : SysEnv) :
    hasKeyStr (get_system_info env).1 "device_id" = true
      ∧ hasKeyStr (get_system_info env).1 "hostname" = true
      ∧ hasKeyStr (get_system_info env).1 "kernel" = true
      ∧ hasKeyStr (get_system_info env).1 "architecture" = true
      ∧ hasKeyStr (get_system_info env).1 "timestamp" = true :=
  ⟨hasKeyStr_runExt env.extSteps _ _ rfl,
   hasKeyStr_runExt env.extSteps _ _ rfl,
   hasKeyStr_runExt env.extSteps _ _ rfl,
   hasKeyStr_runExt env.extSteps _ _ rfl,
   hasKeyStr_runExt env.extSteps _ _ rfl⟩

end KioskAgent
